import Mathlib

/- Verification development for the PittBOT onboarding bot (src/bot.py).
The invite-attribution and verification-session core is shallowly embedded:
the global caches of bot.py become fields of `BotState`, the Discord/database
surroundings become an `Env`, and each handler becomes a pure function from a
state to a new state together with the ordered list of externally visible
effects it performs.  Member display names are rendered by their numeric id
in message texts (the source interpolates both name and id); apostrophes of
the source texts are dropped. -/

namespace PittBot

/-- Invite object as used by bot.py: an invite code and its use counter. -/
structure Invite where
  code : String
  uses : Nat
deriving DecidableEq

/-- Role object as used by bot.py: a role id and its display name. -/
structure Role where
  id : Nat
  name : String
deriving DecidableEq

/-- Persisted invite row (util.db.DbInvite): code, owning guild, bound role id. -/
structure DbInvite where
  code : String
  guild_id : Nat
  role_id : Nat
deriving DecidableEq

/-- Persisted member row (util.db.DbUser). -/
structure DbUser where
  ID : Nat
  username : String
  email : String
  verified : Bool
  is_ra : Bool
  community : String
deriving DecidableEq

/-- The process-wide mutable caches of bot.py (its module-level dictionaries). -/
structure BotState where
  invites_cache : Nat → List Invite
  invite_to_role : String → Option Role
  user_to_guild : Nat → Option Nat
  user_to_email : Nat → Option String
  override_user_to_code : Nat → Option Invite
  user_to_invite : Nat → Option Invite

/-- The external world consumed by the handlers: the persisted store, the
guild directory, the fresh invite fetch, and the outcome of the email modal
(`some v` when the VerifyModal callback fired with value `v`, `none` when the
modal timed out without a submission). -/
structure Env where
  db_users : Nat → Option DbUser
  db_invites : String → Option DbInvite
  guild_roles : Nat → List Role
  guild_members : Nat → List Nat
  guild_name : Nat → String
  fresh_invites : Nat → List Invite
  modal_submission : Option String

/-- Externally visible actions of a handler run, in program order.
`delSession` marks the deletion of one per-user session cache entry,
`keyError` marks a Python KeyError aborting the run. -/
inductive Effect where
  | sendUser (text : String)
  | sendLog (text : String)
  | sendDropdown (options : List String)
  | sendModal
  | grantRole (roleName : String) (reasonCode : String)
  | editNick (nick : String)
  | revokeLanding (roleName : String)
  | dbMergeUser (rec : DbUser)
  | dbCommit
  | delSession (cache : String) (user : Nat)
  | keyError
deriving DecidableEq

/-- Point update of a Nat-keyed cache. -/
def setU {α : Type} (m : Nat → Option α) (k : Nat) (v : α) : Nat → Option α :=
  fun x => if x = k then some v else m x

/-- Point deletion of a Nat-keyed cache. -/
def delU {α : Type} (m : Nat → Option α) (k : Nat) : Nat → Option α :=
  fun x => if x = k then none else m x

/-- Point update of a String-keyed dictionary (dict assignment: last write wins). -/
def setS {α : Type} (m : String → Option α) (k : String) (v : α) : String → Option α :=
  fun x => if x = k then some v else m x

/-- Whether the character list starts with the given pattern. -/
def startsWithChars : List Char → List Char → Bool
  | _, [] => true
  | [], _ :: _ => false
  | c :: cs, d :: ds => c == d && startsWithChars cs ds

/-- Whether the pattern occurs somewhere in the character list. -/
def hasSubChars (needle : List Char) : List Char → Bool
  | [] => startsWithChars [] needle
  | c :: rest => startsWithChars (c :: rest) needle || hasSubChars needle rest

/-- Python substring test `needle in hay`. -/
def pyContains (hay needle : String) : Bool :=
  hasSubChars needle.data hay.data

/-- Characters before the first occurrence of the pattern (the whole list when
the pattern is absent; bot.py only applies this when the pattern is present). -/
def takeUntilChars (needle : List Char) : List Char → List Char
  | [] => []
  | c :: rest =>
      if startsWithChars (c :: rest) needle then []
      else c :: takeUntilChars needle rest

/-- The required institutional e-mail domain. -/
def pittDomain : String := "@pitt.edu"

/-- Python `email[: email.find(pittDomain)]` for an email containing the domain. -/
def nickOf (email : String) : String :=
  ⟨takeUntilChars pittDomain.data email.data⟩

/-- Modelled from the spec: `util.invites.get_invite_from_code` (module
util/invites.py is not under src/; per spec section 4.2 the old invite is
looked up by its code in the current snapshot). -/
def get_invite_from_code (invites : List Invite) (code : String) : Option Invite :=
  invites.find? (fun i => i.code == code)

/-- One old invite is a candidate when it is still present in the fresh
snapshot and its use counter strictly increased (bot.py diff loop body). -/
def increased (invites_now : List Invite) (p : Invite) : Bool :=
  match get_invite_from_code invites_now p.code with
  | none => false
  | some n => decide (p.uses < n.uses)

/-- The candidate-collection loop of on_member_join (lines 1331-1353) and of
verify (lines 340-362): scan the old snapshot, skip invites absent from the
fresh snapshot, keep those whose use counter strictly increased. -/
def potentialInvites (old invites_now : List Invite) : List Invite :=
  old.filter (increased invites_now)

/-- Message texts of the source, apostrophes dropped and member names rendered
by id. -/
def welcomeMsg (u : Nat) : String :=
  "Welcome " ++ Nat.repr u ++ "! Thank you for verifying. You can now exit this channel. Check out the channels on the left! If you are on mobile, click the three lines in the top left."

/-- User message of the VerifyModal callback on a non-institutional email. -/
def retryMsg : String :=
  "Only @pitt.edu emails will be accepted. Please retry by pressing the green button."

/-- User message when the verified flag is already set in the database. -/
def alreadyVerifiedMsg : String :=
  "Youre already verified! Congrats"

/-- User message when no guild can be determined for the verification. -/
def noServerMsg : String :=
  "We werent able to figure out which server you were trying to verify for. Press the green verify button inside the servers verify channel."

/-- User message when the author is not a member of the determined guild. -/
def notInServerMsg (guildName : String) : String :=
  "It doesnt look like we could verify that you are in the server " ++ guildName ++ ". Press the green verify button inside the servers verify channel."

/-- User message of the cached-invite fast path when the databased invite has
no resolvable role (verify line 321). -/
def noRoleFastMsg : String :=
  "We couldnt find a role to give you, ask your RA for help!"

/-- User message of the unique-candidate path when the databased invite has no
resolvable role (verify line 393). -/
def noRoleSingleMsg : String :=
  "We couldnt find a role to give you, please let your RA know!"

/-- Operator log when a databased invite does not yield a role. -/
def dbNoRoleLog (code : String) (u : Nat) : String :=
  "Databased invite " ++ code ++ " did not return a role to assign to " ++ Nat.repr u ++ ". This is an error."

/-- User message of verify when zero candidate invites are found (line 483). -/
def noCandidateMsg : String :=
  "No valid invite link could associate you with a specific community, please let your RA know!"

/-- Operator log of verify when zero candidate invites are found (line 478). -/
def noCandidateLogVerify (u : Nat) : String :=
  "WARNING: No valid invite link was found when user " ++ Nat.repr u ++ " verified. This will abort verification and require manual override."

/-- User message embedding the unresolvable invite code (verify lines 440, 450, 545, 553). -/
def inviteLinkFailMsg (code : String) : String :=
  "The invite link " ++ code ++ " couldnt associate you with a specific community, please let your RA know!"

/-- Operator log when a discarded ambiguity candidate is neither cached nor databased (verify line 453). -/
def neitherLogVerify (code : String) (u : Nat) : String :=
  "The invite link " ++ code ++ " couldnt associate " ++ Nat.repr u ++ " with a specific community. This will probably need manual override."

/-- Operator log of on_member_join when a candidate is neither cached nor databased (line 1404). -/
def neitherCachedLogJoin (code : String) : String :=
  "Invite link " ++ code ++ " was neither cached nor found in the database. This code will be ignored. This is an error."

/-- User message when the overridden invite code is not in the old snapshot (verify line 500). -/
def overrideNoInviteMsg : String :=
  "We couldnt find a valid invite code associated with the community you selected."

/-- Operator log when the overridden invite code is not in the old snapshot (verify line 503). -/
def overrideNoInviteLog (u : Nat) : String :=
  "Failed to associate invite to role for user " ++ Nat.repr u ++ ", no roles were assigned."

/-- Operator log of the override path on a cached invite (verify line 516; the
source sends this text with literal braces, not an f-string). -/
def usedCachedInviteLog : String :=
  "User used cached invite"

/-- Operator log of the override path on a databased invite (verify line 535). -/
def usedDbInviteLog : String :=
  "User used databased invite"

/-- Operator log of the override path when the databased invite has no role (verify line 542). -/
def dbNoRoleManualLog (code : String) (u : Nat) : String :=
  "Databased invite " ++ code ++ " was not associated with a role. User " ++ Nat.repr u ++ " will need to be manually set."

/-- User message of the missing-record hard failure (verify line 575): it
interpolates the member id. -/
def err404Msg (u : Nat) : String :=
  "Your user ID " ++ Nat.repr u ++ " doesnt show up in our records! Please report this error to your RA with Error #404"

/-- Operator log of the missing-record hard failure (verify line 579). -/
def notInRecordsLog (u : Nat) : String :=
  "User " ++ Nat.repr u ++ " submitted verification but did not end up in records. User will need manually verified or to try again."

/-- Operator log on a successful email capture (verify line 594). -/
def verifiedLog (u : Nat) (email : String) : String :=
  "Verified " ++ Nat.repr u ++ " with email " ++ email

/-- Operator log after the sub-community role grant (verify line 620). -/
def verifiedRoleLog (u : Nat) (roleName : String) : String :=
  "User " ++ Nat.repr u ++ " has been verified with role " ++ roleName ++ "."

/-- Operator log when completion finds no assigned role (verify line 627). -/
def noRoleDetermineLog (u : Nat) : String :=
  "Unable to determine a role from the invite link used by " ++ Nat.repr u ++ ". No roles will be applied."

/-- User message when completion finds no assigned role (verify line 630). -/
def noRoleDetermineMsg : String :=
  "The invite used couldnt associate you with a specific community, please let your RA know!"

/-- Operator log of on_member_join when the candidates are ambiguous (line 1419). -/
def ambiguousLog (u : Nat) : String :=
  "User " ++ Nat.repr u ++ " invite code was ambiguous, sending them manual selection menu..."

/-- Operator log of on_member_join on a unique candidate (line 1446). -/
def joinedOkLog (u : Nat) (code : String) : String :=
  "OK: User " ++ Nat.repr u ++ " is associated with invite code " ++ code

/-- Operator log of on_member_join on zero candidates (line 1434). -/
def joinNoCandidateLog (u : Nat) : String :=
  "WARNING: No valid invite link was found when user " ++ Nat.repr u ++ " joined. This is likely to require manual override."

/-- Role-binding resolution of verify's cached-invite fast path (lines 304-330):
in-memory cache first, then the persisted invite row; a databased invite whose
role id no longer resolves aborts the flow (`none`), a databased miss falls
through with no assigned role (`some none`). -/
def fastPathResolve (st : BotState) (env : Env) (g u : Nat) (invite : Invite) :
    Option (Option Role) × List Effect :=
  match st.invite_to_role invite.code with
  | some role => (some (some role), [])
  | none =>
      match env.db_invites invite.code with
      | some invObj =>
          match (env.guild_roles g).find? (fun r => r.id == invObj.role_id) with
          | some role => (some (some role), [])
          | none =>
              (none, [Effect.sendUser noRoleFastMsg, Effect.sendLog (dbNoRoleLog invObj.code u)])
      | none => (some none, [])

/-- Role-binding resolution of verify's unique-candidate path (lines 372-402);
identical to the fast path except for the user-facing message text. -/
def singleResolve (st : BotState) (env : Env) (g u : Nat) (invite : Invite) :
    Option (Option Role) × List Effect :=
  match st.invite_to_role invite.code with
  | some role => (some (some role), [])
  | none =>
      match env.db_invites invite.code with
      | some invObj =>
          match (env.guild_roles g).find? (fun r => r.id == invObj.role_id) with
          | some role => (some (some role), [])
          | none =>
              (none, [Effect.sendUser noRoleSingleMsg, Effect.sendLog (dbNoRoleLog invObj.code u)])
      | none => (some none, [])

/-- One iteration of the ambiguity option-building loop (verify lines 410-454,
on_member_join lines 1369-1405).  `forVerify` selects the extra user-facing
discard messages that only the verify version sends. -/
def buildOptionsStep (st : BotState) (env : Env) (g u : Nat) (forVerify : Bool)
    (acc : List String × (String → Option Invite) × List Effect) (inv : Invite) :
    List String × (String → Option Invite) × List Effect :=
  match st.invite_to_role inv.code with
  | some role => (acc.1 ++ [role.name], setS acc.2.1 role.name inv, acc.2.2)
  | none =>
      match env.db_invites inv.code with
      | some invObj =>
          match (env.guild_roles g).find? (fun r => r.id == invObj.role_id) with
          | some role => (acc.1 ++ [role.name], setS acc.2.1 role.name inv, acc.2.2)
          | none =>
              (acc.1, acc.2.1, acc.2.2 ++
                (if forVerify then [Effect.sendUser (inviteLinkFailMsg inv.code)] else []) ++
                [Effect.sendLog (dbNoRoleLog inv.code u)])
      | none =>
          (acc.1, acc.2.1, acc.2.2 ++
            (if forVerify then
              [Effect.sendUser (inviteLinkFailMsg inv.code),
               Effect.sendLog (neitherLogVerify inv.code u)]
             else [Effect.sendLog (neitherCachedLogJoin inv.code)]))

/-- The full ambiguity option-building loop over the candidate list. -/
def buildOptions (st : BotState) (env : Env) (g u : Nat) (forVerify : Bool)
    (l : List Invite) : List String × (String → Option Invite) × List Effect :=
  l.foldl (buildOptionsStep st env g u forVerify) ([], fun _ => none, [])

/-- The tail of verify from the modal prompt onwards (lines 557-677): email
capture via the VerifyModal callback, domain check, nickname edit, tier and
sub-community role grants, landing-channel revocation, member-record merge,
snapshot refresh, session-cache deletion and commit.  The record-construction
arm for an absent assigned role (source lines 652-659) is unreachable: the
flow returns at the earlier assigned-role guard. -/
def actualVerification (st : BotState) (env : Env) (g u : Nat) (invite : Invite)
    (assigned_role : Option Role) (invites_now : List Invite) : BotState × List Effect :=
  let base : BotState × List Effect :=
    match env.modal_submission with
    | some v =>
        ({ st with user_to_email := setU st.user_to_email u v },
         [Effect.sendModal,
          Effect.sendUser (if pyContains v pittDomain then welcomeMsg u else retryMsg)])
    | none => (st, [Effect.sendModal])
  let st1 := base.1
  let effs0 := base.2
  match st1.user_to_email u with
  | none =>
      (st1, effs0 ++ [Effect.sendUser (err404Msg u), Effect.sendLog (notInRecordsLog u)])
  | some email =>
      if pyContains email pittDomain then
        let effs1 := effs0 ++ [Effect.editNick (nickOf email), Effect.sendLog (verifiedLog u email)]
        let effs2 := effs1 ++
          [if invite.uses = 0 then Effect.grantRole "RA" invite.code
           else Effect.grantRole "resident" invite.code]
        match assigned_role with
        | some role =>
            let effs3 := effs2 ++ [Effect.grantRole role.name invite.code,
                                   Effect.sendLog (verifiedRoleLog u role.name)]
            match st1.invite_to_role invite.code with
            | none => (st1, effs3 ++ [Effect.keyError])
            | some landingRole =>
                let effs4 := effs3 ++ [Effect.revokeLanding landingRole.name]
                let newMember : DbUser :=
                  ⟨u, Nat.repr u, email, true, invite.uses == 0, role.name⟩
                let st2 := { st1 with
                  invites_cache := fun x => if x = g then invites_now else st1.invites_cache x }
                let st3 := { st2 with user_to_email := delU st2.user_to_email u }
                let effs5 := effs4 ++ [Effect.dbMergeUser newMember,
                                       Effect.delSession "user_to_email" u]
                match st3.user_to_guild u with
                | none => (st3, effs5 ++ [Effect.keyError])
                | some _ =>
                    let st4 := { st3 with user_to_guild := delU st3.user_to_guild u }
                    let ovDel : List Effect :=
                      match st4.override_user_to_code u with
                      | some _ => [Effect.delSession "override_user_to_code" u]
                      | none => []
                    let st5 := { st4 with
                      override_user_to_code := delU st4.override_user_to_code u }
                    let uiDel : List Effect :=
                      match st5.user_to_invite u with
                      | some _ => [Effect.delSession "user_to_invite" u]
                      | none => []
                    let st6 := { st5 with user_to_invite := delU st5.user_to_invite u }
                    (st6, effs5 ++ [Effect.delSession "user_to_guild" u] ++ ovDel ++ uiDel ++
                          [Effect.dbCommit])
        | none =>
            (st1, effs2 ++ [Effect.sendLog (noRoleDetermineLog u),
                            Effect.sendUser noRoleDetermineMsg])
      else (st1, effs0)

/-- The slow path of verify taken when the user has no cached candidate
invite (lines 340-555): re-run the diff, then dispatch on the override cache. -/
def slowPath (st : BotState) (env : Env) (u g : Nat)
    (old_invites invites_now : List Invite) : BotState × List Effect :=
  let potential := potentialInvites old_invites invites_now
  match st.override_user_to_code u with
  | none =>
      match potential with
      | [invite] =>
          (match singleResolve st env g u invite with
           | (some ar, effs) =>
               let r := actualVerification st env g u invite ar invites_now
               (r.1, effs ++ r.2)
           | (none, effs) => (st, effs))
      | [] =>
          (st, [Effect.sendLog (noCandidateLogVerify u), Effect.sendUser noCandidateMsg])
      | more =>
          let b := buildOptions st env g u true more
          (st, b.2.2 ++ [Effect.sendDropdown b.1])
  | some ov =>
      match old_invites.find? (fun i => i.code == ov.code) with
      | none =>
          (st, [Effect.sendUser overrideNoInviteMsg, Effect.sendLog (overrideNoInviteLog u)])
      | some invite =>
          match st.invite_to_role ov.code with
          | some role =>
              let r := actualVerification st env g u invite (some role) invites_now
              (r.1, [Effect.sendLog usedCachedInviteLog] ++ r.2)
          | none =>
              match env.db_invites ov.code with
              | some invObj =>
                  match (env.guild_roles g).find? (fun r => r.id == invObj.role_id) with
                  | some role =>
                      let r := actualVerification st env g u invite (some role) invites_now
                      (r.1, [Effect.sendLog usedDbInviteLog] ++ r.2)
                  | none =>
                      (st, [Effect.sendLog (dbNoRoleManualLog ov.code u),
                            Effect.sendUser (inviteLinkFailMsg ov.code)])
              | none => (st, [Effect.sendUser (inviteLinkFailMsg ov.code)])

/-- verify once the guild is determined (lines 280-677): fetch the fresh
snapshot, check membership, then either the cached-invite fast path or the
slow path, each continuing into `actualVerification` when resolution succeeds. -/
def verifyInGuild (st : BotState) (env : Env) (u g : Nat) : BotState × List Effect :=
  let invites_now := env.fresh_invites g
  let old_invites := st.invites_cache g
  if (env.guild_members g).contains u then
    match st.user_to_invite u with
    | some invite =>
        (match fastPathResolve st env g u invite with
         | (some ar, effs) =>
             let r := actualVerification st env g u invite ar invites_now
             (r.1, effs ++ r.2)
         | (none, effs) => (st, effs))
    | none => slowPath st env u g old_invites invites_now
  else (st, [Effect.sendUser (notInServerMsg (env.guild_name g))])

/-- The verify entry point (lines 242-677): short-circuit when the member row
is already verified, then determine the guild from the session cache or the
invocation context. -/
def verify (st : BotState) (env : Env) (author : Nat) (ctx_guild : Option Nat) :
    BotState × List Effect :=
  let proceed : Bool :=
    match env.db_users author with
    | some user => !user.verified
    | none => true
  if proceed then
    match st.user_to_guild author with
    | some g => verifyInGuild st env author g
    | none =>
        match ctx_guild with
        | some g => verifyInGuild st env author g
        | none => (st, [Effect.sendUser noServerMsg])
  else (st, [Effect.sendUser alreadyVerifiedMsg])

/-- The on_member_join handler (lines 1301-1459): record the joining guild,
diff the snapshots, and on a unique candidate cache it; on ambiguity send the
selection dropdown; on zero candidates warn the operator channel. -/
def on_member_join (st : BotState) (env : Env) (u g : Nat) : BotState × List Effect :=
  let st1 := { st with user_to_guild := setU st.user_to_guild u g }
  let invites_now := env.fresh_invites g
  let old_invites := st1.invites_cache g
  match potentialInvites old_invites invites_now with
  | [inv] =>
      let st2 := { st1 with
        user_to_invite := setU st1.user_to_invite u inv,
        invites_cache := fun x => if x = g then invites_now else st1.invites_cache x }
      (st2, [Effect.sendLog (joinedOkLog u inv.code)])
  | [] =>
      let st2 := { st1 with
        invites_cache := fun x => if x = g then invites_now else st1.invites_cache x }
      (st2, [Effect.sendLog (joinNoCandidateLog u)])
  | more =>
      let b := buildOptions st1 env g u false more
      (st1, b.2.2 ++ [Effect.sendDropdown b.1, Effect.sendLog (ambiguousLog u)])

/-- The cache writes of CommunitySelectDropdown.callback (lines 156-158):
both the override cache and the candidate cache receive the invite mapped
from the selected option; `none` models the Python KeyError on an unmapped
selection.  The callback then invokes verify on the resulting state. -/
def communitySelectCallbackState (st : BotState) (opts_to_inv : String → Option Invite)
    (u : Nat) (choice : String) : Option BotState :=
  match opts_to_inv choice with
  | some inv =>
      some { st with
        override_user_to_code := setU st.override_user_to_code u inv,
        user_to_invite := setU st.user_to_invite u inv }
  | none => none

/-- Effects that neither grant roles, edit nicknames, touch the database,
revoke permissions, nor delete session state: messages and prompts only. -/
def benign : Effect → Bool
  | Effect.sendUser _ => true
  | Effect.sendLog _ => true
  | Effect.sendDropdown _ => true
  | Effect.sendModal => true
  | _ => false

/-- Effects that are neither a session deletion, a record merge, nor a commit. -/
def sessionMarkerFree : Effect → Bool
  | Effect.delSession _ _ => false
  | Effect.dbCommit => false
  | Effect.dbMergeUser _ => false
  | _ => true

/-- Whether an effect is a session-cache deletion for the given user. -/
def isDeleteOf (u : Nat) : Effect → Bool
  | Effect.delSession _ v => v == u
  | _ => false

/-- The user-facing message texts of an effect trace. -/
def userMsgs (effs : List Effect) : List String :=
  effs.filterMap (fun e => match e with | Effect.sendUser s => some s | _ => none)

/-- Scan helper: true when every session deletion in the trace is preceded by
a database commit. -/
def observedBeforeDeletesAux : Bool → List Effect → Bool
  | _, [] => true
  | _, Effect.dbCommit :: es => observedBeforeDeletesAux true es
  | seen, Effect.delSession _ _ :: es => seen && observedBeforeDeletesAux seen es
  | seen, _ :: es => observedBeforeDeletesAux seen es

/-- The ordering demanded by the spec: the persistence outcome (commit) is
observed before any session-cache deletion of the run. -/
def observedBeforeDeletes (effs : List Effect) : Bool :=
  observedBeforeDeletesAux false effs

/-- A state with all caches empty. -/
def emptyState : BotState :=
  { invites_cache := fun _ => [], invite_to_role := fun _ => none,
    user_to_guild := fun _ => none, user_to_email := fun _ => none,
    override_user_to_code := fun _ => none, user_to_invite := fun _ => none }

/-- An environment with an empty directory and no modal submission. -/
def baseEnv : Env :=
  { db_users := fun _ => none, db_invites := fun _ => none,
    guild_roles := fun _ => [], guild_members := fun _ => [],
    guild_name := fun _ => "hall", fresh_invites := fun _ => [],
    modal_submission := none }

/-- User 5 already holds candidate invite X while a fresh join resolves uniquely to Y. -/
def c1St : BotState :=
  { emptyState with
    invites_cache := fun _ => [⟨"Y", 0⟩],
    user_to_guild := fun _ => some 1,
    user_to_invite := fun _ => some ⟨"X", 3⟩ }

/-- Fresh snapshot in which invite Y gained a use. -/
def c1Env : Env :=
  { baseEnv with fresh_invites := fun _ => [⟨"Y", 1⟩] }

/-- Session state for the C1 witness: cached candidate Y with a bound role and
a conflicting override Z. -/
def c1wSt : BotState :=
  { emptyState with
    invites_cache := fun _ => [⟨"Y", 0⟩],
    invite_to_role := fun c => if c = "Y" then some ⟨10, "TowerY"⟩ else none,
    user_to_guild := fun x => if x = 5 then some 1 else none,
    user_to_invite := fun x => if x = 5 then some ⟨"Y", 0⟩ else none,
    override_user_to_code := fun x => if x = 5 then some ⟨"Z", 2⟩ else none }

/-- Environment for the C1 witness: member of the guild, unique diff on Y,
valid email submission. -/
def c1wEnv : Env :=
  { baseEnv with
    guild_members := fun _ => [5],
    fresh_invites := fun _ => [⟨"Y", 1⟩],
    modal_submission := some "abc@pitt.edu" }

/-- A completed fast-path verification scenario for user 5 via invite Y. -/
def c2St : BotState :=
  { emptyState with
    invites_cache := fun _ => [⟨"Y", 0⟩],
    invite_to_role := fun c => if c = "Y" then some ⟨10, "TowerA"⟩ else none,
    user_to_guild := fun x => if x = 5 then some 1 else none,
    user_to_invite := fun x => if x = 5 then some ⟨"Y", 0⟩ else none }

/-- Environment completing C2: membership holds and the modal yields a valid email. -/
def c2Env : Env :=
  { baseEnv with
    guild_members := fun _ => [5],
    fresh_invites := fun _ => [⟨"Y", 1⟩],
    modal_submission := some "abc@pitt.edu" }

/-- Old snapshot of the spec example: A unused, B used three times. -/
def c3Old : List Invite := [⟨"A", 0⟩, ⟨"B", 3⟩]

/-- Fresh snapshot of the spec example: only A gained a use. -/
def c3Now : List Invite := [⟨"A", 1⟩, ⟨"B", 3⟩]

/-- Pre-join snapshot for C4 in which invite A has five uses. -/
def c4St : BotState :=
  { emptyState with invites_cache := fun _ => [⟨"A", 5⟩] }

/-- Fresh snapshot identical to the old one: zero candidates. -/
def c4Env : Env :=
  { baseEnv with fresh_invites := fun _ => [⟨"A", 5⟩] }

/-- Environment whose modal submission fails the institutional-domain check. -/
def c6Env : Env :=
  { baseEnv with modal_submission := some "bob@gmail.com" }

/-- Override session whose invite code is neither cached nor databased. -/
def c7St : BotState :=
  { emptyState with
    invites_cache := fun _ => [⟨"zzz", 4⟩],
    user_to_guild := fun x => if x = 7 then some 1 else none,
    override_user_to_code := fun x => if x = 7 then some ⟨"zzz", 4⟩ else none }

/-- Environment for C7: user 7 is a member, nothing in the database. -/
def c7Env : Env :=
  { baseEnv with
    guild_members := fun _ => [7],
    fresh_invites := fun _ => [⟨"zzz", 4⟩] }

/-- State whose invite row exists but whose bound role id resolves to no guild role. -/
def c7wSt : BotState :=
  { emptyState with user_to_guild := fun x => if x = 7 then some 1 else none }

/-- Environment with a databased invite bound to the missing role id 99. -/
def c7wEnv : Env :=
  { baseEnv with
    db_invites := fun c => if c = "Q" then some ⟨"Q", 1, 99⟩ else none,
    guild_roles := fun _ => [⟨10, "TowerA"⟩],
    modal_submission := some "abc@pitt.edu" }

/-- Override run A for C8, with invite code aaaa. -/
def c8StA : BotState :=
  { emptyState with
    invites_cache := fun _ => [⟨"aaaa", 4⟩],
    user_to_guild := fun x => if x = 7 then some 1 else none,
    override_user_to_code := fun x => if x = 7 then some ⟨"aaaa", 4⟩ else none }

/-- Override run B for C8, identical except the invite code is bbbb. -/
def c8StB : BotState :=
  { emptyState with
    invites_cache := fun _ => [⟨"bbbb", 4⟩],
    user_to_guild := fun x => if x = 7 then some 1 else none,
    override_user_to_code := fun x => if x = 7 then some ⟨"bbbb", 4⟩ else none }

/-- Shared environment of the two C8 runs. -/
def c8Env : Env :=
  { baseEnv with
    guild_members := fun _ => [7],
    fresh_invites := fun _ => [] }

/-- Zero-candidate verify scenario used by the C8 witness. -/
def c8wSt : BotState :=
  { emptyState with
    invites_cache := fun _ => [⟨"A", 5⟩],
    user_to_guild := fun x => if x = 7 then some 1 else none }

/-- Environment for the C8 witness: member of the guild, unchanged snapshot. -/
def c8wEnv : Env :=
  { baseEnv with
    guild_members := fun _ => [7],
    fresh_invites := fun _ => [⟨"A", 5⟩] }

/-- State for the C10 witness: invite Y is cached with a bound role. -/
def c10St : BotState :=
  { emptyState with
    invite_to_role := fun c => if c = "Y" then some ⟨10, "TowerY"⟩ else none,
    user_to_guild := fun x => if x = 7 then some 1 else none }

/-- Environment for the C10 witness. -/
def c10Env : Env :=
  { baseEnv with
    guild_members := fun _ => [7],
    modal_submission := some "abc@pitt.edu" }

/-- Dropdown option map of the C10 witness. -/
def c10Map : String → Option Invite :=
  fun s => if s = "TowerY" then some ⟨"Y", 0⟩ else none

/-- The state produced by the dropdown callback of the C10 witness. -/
def c10St2 : BotState :=
  { c10St with
    override_user_to_code := setU c10St.override_user_to_code 7 ⟨"Y", 0⟩,
    user_to_invite := setU c10St.user_to_invite 7 ⟨"Y", 0⟩ }

/-- A filter keeping exactly one element of a duplicate-free list returns the
singleton of that element. -/
theorem filter_eq_single {α : Type} (p : α → Bool) (l : List α) (a : α)
    (hnd : l.Nodup) (hmem : a ∈ l) (hp : p a = true)
    (huniq : ∀ b ∈ l, p b = true → b = a) : l.filter p = [a] := by
  induction l with
  | nil => cases hmem
  | cons x xs ih =>
    rcases List.nodup_cons.mp hnd with ⟨hx, hnd2⟩
    rcases List.mem_cons.mp hmem with h | hmem2
    · subst h
      rw [List.filter_cons_of_pos hp]
      have hnone : ∀ b ∈ xs, ¬ p b = true := by
        intro b hb hpb
        have hba := huniq b (List.mem_cons_of_mem _ hb) hpb
        subst hba
        exact hx hb
      have : xs.filter p = [] := by
        rw [List.filter_eq_nil_iff]
        exact hnone
      rw [this]
    · have hxa : x ≠ a := by
        intro h
        subst h
        exact hx hmem2
      have hpx : ¬ p x = true := fun hpx => hxa (huniq x (List.mem_cons_self x xs) hpx)
      rw [List.filter_cons_of_neg (by simpa using hpx)]
      exact ih hnd2 hmem2 (fun b hb hpb => huniq b (List.mem_cons_of_mem _ hb) hpb)

/-- find? is permutation-invariant when at most one element satisfies the
predicate. -/
theorem find_perm_of_unique {α : Type} (p : α → Bool) {l l2 : List α}
    (hperm : l2.Perm l)
    (huniq : ∀ a ∈ l, ∀ b ∈ l, p a = true → p b = true → a = b) :
    l2.find? p = l.find? p := by
  cases hfind : l.find? p with
  | none =>
    have hnone := List.find?_eq_none.mp hfind
    exact List.find?_eq_none.mpr (fun x hx => hnone x (hperm.mem_iff.mp hx))
  | some y =>
    have hy : p y = true := List.find?_some hfind
    have hymem : y ∈ l := List.mem_of_find?_eq_some hfind
    cases hfind2 : l2.find? p with
    | none =>
      exact absurd hy (List.find?_eq_none.mp hfind2 y (hperm.mem_iff.mpr hymem))
    | some z =>
      have hz : p z = true := List.find?_some hfind2
      have hzmem : z ∈ l := hperm.mem_iff.mp (List.mem_of_find?_eq_some hfind2)
      rw [huniq z hzmem y hymem hz hy]

/-- The candidate predicate is permutation-invariant in the fresh snapshot
when its invite codes are duplicate-free. -/
theorem increased_perm (invNow invNow2 : List Invite)
    (hperm : invNow2.Perm invNow) (hcodes : (invNow.map Invite.code).Nodup)
    (p : Invite) : increased invNow2 p = increased invNow p := by
  unfold increased get_invite_from_code
  rw [find_perm_of_unique _ hperm ?uniq]
  case uniq =>
    intro a ha b hb hpa hpb
    have ha2 : a.code = p.code := by simpa using hpa
    have hb2 : b.code = p.code := by simpa using hpb
    exact List.inj_on_of_nodup_map hcodes ha hb (ha2.trans hb2.symm)

/-- C3: when exactly one invite of the old snapshot strictly increased its use
count, the candidate-collection loop returns exactly that invite, the result
is unchanged under any reordering of the fresh snapshot, and invites absent
from the fresh snapshot are skipped. -/
theorem C3_theorem (old invNow : List Invite) (i : Invite)
    (hnd : old.Nodup) (hcodes : (invNow.map Invite.code).Nodup)
    (hmem : i ∈ old) (hinc : increased invNow i = true)
    (huniq : ∀ j ∈ old, increased invNow j = true → j = i) :
    potentialInvites old invNow = [i] ∧
    (∀ invNow2 : List Invite, invNow2.Perm invNow →
      potentialInvites old invNow2 = [i]) ∧
    (∀ j ∈ old, get_invite_from_code invNow j.code = none →
      j ∉ potentialInvites old invNow) := by
  have h1 : potentialInvites old invNow = [i] :=
    filter_eq_single _ _ _ hnd hmem hinc huniq
  refine ⟨h1, ?_, ?_⟩
  · intro invNow2 hperm
    have hfun : increased invNow2 = increased invNow :=
      funext (increased_perm invNow invNow2 hperm hcodes)
    unfold potentialInvites at h1 ⊢
    rw [hfun]
    exact h1
  · intro j hj habs hmemf
    have hmt : increased invNow j = true := List.of_mem_filter hmemf
    simp only [increased, habs] at hmt
    cases hmt

/-- C3 witness: the spec example, old A:0 B:3 against fresh A:1 B:3. -/
theorem C3_witness :
    potentialInvites c3Old c3Now = [⟨"A", 0⟩] ∧
    (∀ invNow2 : List Invite, invNow2.Perm c3Now →
      potentialInvites c3Old invNow2 = [⟨"A", 0⟩]) ∧
    (∀ j ∈ c3Old, get_invite_from_code c3Now j.code = none →
      j ∉ potentialInvites c3Old c3Now) :=
  C3_theorem c3Old c3Now ⟨"A", 0⟩ (by decide) (by decide) (by decide) (by decide)
    (by decide)

/-- A completed run of the verify tail: with a captured institutional email,
an assigned role, a cached landing binding and a present guild entry, the
effect trace of `actualVerification` is fully determined. -/
theorem actualVerification_run (st : BotState) (env : Env) (g u g0 : Nat)
    (invite : Invite) (role lr : Role) (invites_now : List Invite) (email : String)
    (hmail : env.modal_submission = some email)
    (hvalid : pyContains email pittDomain = true)
    (hlr : st.invite_to_role invite.code = some lr)
    (hgd : st.user_to_guild u = some g0) :
    (actualVerification st env g u invite (some role) invites_now).2 =
      [Effect.sendModal, Effect.sendUser (welcomeMsg u),
       Effect.editNick (nickOf email), Effect.sendLog (verifiedLog u email),
       (if invite.uses = 0 then Effect.grantRole "RA" invite.code
        else Effect.grantRole "resident" invite.code),
       Effect.grantRole role.name invite.code,
       Effect.sendLog (verifiedRoleLog u role.name),
       Effect.revokeLanding lr.name,
       Effect.dbMergeUser ⟨u, Nat.repr u, email, true, invite.uses == 0, role.name⟩,
       Effect.delSession "user_to_email" u,
       Effect.delSession "user_to_guild" u] ++
      (match st.override_user_to_code u with
       | some _ => [Effect.delSession "override_user_to_code" u]
       | none => []) ++
      (match st.user_to_invite u with
       | some _ => [Effect.delSession "user_to_invite" u]
       | none => []) ++
      [Effect.dbCommit] := by
  unfold actualVerification
  simp only [hmail, hvalid, hlr, hgd, setU, if_pos, if_true, List.cons_append,
    List.nil_append, List.append_assoc]

/-- A completed run of the whole verify flow through the cached-invite fast
path: the effect trace is fully determined, with the landing revocation using
the cached role itself. -/
theorem verify_fastpath_run (st : BotState) (env : Env) (u g : Nat)
    (invite : Invite) (role : Role) (email : String)
    (hdb : env.db_users u = none)
    (hg : st.user_to_guild u = some g)
    (hm : (env.guild_members g).contains u = true)
    (hui : st.user_to_invite u = some invite)
    (hcache : st.invite_to_role invite.code = some role)
    (hmail : env.modal_submission = some email)
    (hvalid : pyContains email pittDomain = true) :
    (verify st env u none).2 =
      [Effect.sendModal, Effect.sendUser (welcomeMsg u),
       Effect.editNick (nickOf email), Effect.sendLog (verifiedLog u email),
       (if invite.uses = 0 then Effect.grantRole "RA" invite.code
        else Effect.grantRole "resident" invite.code),
       Effect.grantRole role.name invite.code,
       Effect.sendLog (verifiedRoleLog u role.name),
       Effect.revokeLanding role.name,
       Effect.dbMergeUser ⟨u, Nat.repr u, email, true, invite.uses == 0, role.name⟩,
       Effect.delSession "user_to_email" u,
       Effect.delSession "user_to_guild" u] ++
      (match st.override_user_to_code u with
       | some _ => [Effect.delSession "override_user_to_code" u]
       | none => []) ++
      [Effect.delSession "user_to_invite" u, Effect.dbCommit] := by
  unfold verify verifyInGuild fastPathResolve
  simp only [hdb, hg, hm, hui, hcache, if_true, List.nil_append]
  rw [actualVerification_run st env g u g invite role role (env.fresh_invites g)
    email hmail hvalid hcache hg]
  rw [hui]
  simp [List.append_assoc]

/-- C5: in a completed verification with a uniquely resolved invite, the
member is granted the RA tier role exactly when the resolved invite had zero
uses in the pre-join snapshot, is granted the resident tier role otherwise,
and the merged member record carries the matching RA flag. -/
theorem C5_theorem (st : BotState) (env : Env) (g u g0 : Nat) (invite : Invite)
    (role lr : Role) (invites_now : List Invite) (email : String)
    (hmail : env.modal_submission = some email)
    (hvalid : pyContains email pittDomain = true)
    (hlr : st.invite_to_role invite.code = some lr)
    (hgd : st.user_to_guild u = some g0)
    (hnotRA : role.name ≠ "RA") (hnotRes : role.name ≠ "resident") :
    (Effect.grantRole "RA" invite.code ∈
        (actualVerification st env g u invite (some role) invites_now).2 ↔
      invite.uses = 0) ∧
    (Effect.grantRole "resident" invite.code ∈
        (actualVerification st env g u invite (some role) invites_now).2 ↔
      invite.uses ≠ 0) ∧
    Effect.dbMergeUser ⟨u, Nat.repr u, email, true, invite.uses == 0, role.name⟩ ∈
      (actualVerification st env g u invite (some role) invites_now).2 := by
  rw [actualVerification_run st env g u g0 invite role lr invites_now email hmail
    hvalid hlr hgd]
  have hra : ("RA" : String) ≠ "resident" := by decide
  rcases hov : st.override_user_to_code u with _ | ov <;>
    rcases hui2 : st.user_to_invite u with _ | iv <;>
    by_cases h0 : invite.uses = 0 <;>
    simp [h0, hnotRA, hnotRes, hra, Ne.symm hnotRA, Ne.symm hnotRes]

/-- C5 witness: a concrete completed run over an invite with three prior
uses yields the resident tier role and a non-RA record. -/
theorem C5_witness :
    (Effect.grantRole "RA" "Y" ∈
        (actualVerification c2St c2Env 1 5 ⟨"Y", 3⟩ (some ⟨11, "TowerB"⟩)
          [⟨"Y", 4⟩]).2 ↔
      (3 : Nat) = 0) ∧
    (Effect.grantRole "resident" "Y" ∈
        (actualVerification c2St c2Env 1 5 ⟨"Y", 3⟩ (some ⟨11, "TowerB"⟩)
          [⟨"Y", 4⟩]).2 ↔
      (3 : Nat) ≠ 0) ∧
    Effect.dbMergeUser ⟨5, Nat.repr 5, "abc@pitt.edu", true, (3 : Nat) == 0, "TowerB"⟩ ∈
      (actualVerification c2St c2Env 1 5 ⟨"Y", 3⟩ (some ⟨11, "TowerB"⟩)
        [⟨"Y", 4⟩]).2 :=
  C5_theorem c2St c2Env 1 5 1 ⟨"Y", 3⟩ ⟨11, "TowerB"⟩ ⟨10, "TowerA"⟩ [⟨"Y", 4⟩]
    "abc@pitt.edu" (by decide) (by decide) (by decide) (by decide) (by decide)
    (by decide)

/-- C6: an email submission failing the institutional-domain check leaves the
session in place: the run emits only the modal prompt and the retry message,
writes no member record, grants no role, and leaves every session cache other
than the captured email unchanged, so resubmission remains possible. -/
theorem C6_theorem (st : BotState) (env : Env) (g u : Nat) (invite : Invite)
    (ar : Option Role) (invites_now : List Invite) (email : String)
    (hmail : env.modal_submission = some email)
    (hbad : pyContains email pittDomain = false) :
    (actualVerification st env g u invite ar invites_now).2 =
      [Effect.sendModal, Effect.sendUser retryMsg] ∧
    (actualVerification st env g u invite ar invites_now).1.user_to_guild =
      st.user_to_guild ∧
    (actualVerification st env g u invite ar invites_now).1.user_to_invite =
      st.user_to_invite ∧
    (actualVerification st env g u invite ar invites_now).1.override_user_to_code =
      st.override_user_to_code ∧
    (actualVerification st env g u invite ar invites_now).1.invites_cache =
      st.invites_cache ∧
    (actualVerification st env g u invite ar invites_now).1.user_to_email u =
      some email := by
  unfold actualVerification
  simp [hmail, hbad, setU]

/-- C6 witness: the rejected submission bob@gmail.com leaves the empty session
untouched and asks for a retry. -/
theorem C6_witness :
    (actualVerification emptyState c6Env 1 5 ⟨"Y", 0⟩ none []).2 =
      [Effect.sendModal, Effect.sendUser retryMsg] ∧
    (actualVerification emptyState c6Env 1 5 ⟨"Y", 0⟩ none []).1.user_to_guild =
      emptyState.user_to_guild ∧
    (actualVerification emptyState c6Env 1 5 ⟨"Y", 0⟩ none []).1.user_to_invite =
      emptyState.user_to_invite ∧
    (actualVerification emptyState c6Env 1 5 ⟨"Y", 0⟩ none []).1.override_user_to_code =
      emptyState.override_user_to_code ∧
    (actualVerification emptyState c6Env 1 5 ⟨"Y", 0⟩ none []).1.invites_cache =
      emptyState.invites_cache ∧
    (actualVerification emptyState c6Env 1 5 ⟨"Y", 0⟩ none []).1.user_to_email 5 =
      some "bob@gmail.com" :=
  C6_theorem emptyState c6Env 1 5 ⟨"Y", 0⟩ none [] "bob@gmail.com" (by decide)
    (by decide)

/-- C1 counterexample: user 5 already holds recorded candidate invite X when a
second join signal arrives and resolves uniquely to Y; the handler overwrites
the recorded candidate with Y, so a second automatic resolution trigger does
overwrite the session. -/
theorem C1_counterexample :
    c1St.user_to_invite 5 = some ⟨"X", 3⟩ ∧
    (on_member_join c1St c1Env 5 1).1.user_to_invite 5 = some ⟨"Y", 0⟩ ∧
    ((⟨"X", 3⟩ : Invite) ≠ ⟨"Y", 0⟩) := by decide

/-- C1 amended: a join signal with a unique candidate unconditionally
overwrites the recorded community and candidate invite (last automatic writer
wins), and when both an override and an automatic candidate exist, verify
resolves through the candidate cache: every role grant carries the candidate
invite code and none carries the override code. -/
theorem C1_theorem (st : BotState) (env : Env) (u g : Nat) (inv ov : Invite)
    (role : Role) (email : String)
    (hpot : potentialInvites (st.invites_cache g) (env.fresh_invites g) = [inv])
    (hdb : env.db_users u = none)
    (hg : st.user_to_guild u = some g)
    (hm : (env.guild_members g).contains u = true)
    (hui : st.user_to_invite u = some inv)
    (hcache : st.invite_to_role inv.code = some role)
    (hov : st.override_user_to_code u = some ov)
    (hmail : env.modal_submission = some email)
    (hvalid : pyContains email pittDomain = true)
    (hne : ov.code ≠ inv.code) :
    ((on_member_join st env u g).1.user_to_invite u = some inv ∧
     (on_member_join st env u g).1.user_to_guild u = some g) ∧
    (Effect.grantRole role.name inv.code ∈ (verify st env u none).2 ∧
     ∀ rn, Effect.grantRole rn ov.code ∉ (verify st env u none).2) := by
  constructor
  · unfold on_member_join
    simp only [hpot, setU]
    constructor <;> simp
  · rw [verify_fastpath_run st env u g inv role email hdb hg hm hui hcache hmail
      hvalid]
    rw [hov]
    constructor
    · by_cases h0 : inv.uses = 0 <;> simp [h0]
    · intro rn
      by_cases h0 : inv.uses = 0 <;> simp [h0, hne]

/-- C1 witness: cached candidate Y with bound role TowerY wins over the
conflicting override Z in a concrete completed run. -/
theorem C1_witness :
    ((on_member_join c1wSt c1wEnv 5 1).1.user_to_invite 5 = some ⟨"Y", 0⟩ ∧
     (on_member_join c1wSt c1wEnv 5 1).1.user_to_guild 5 = some 1) ∧
    (Effect.grantRole "TowerY" "Y" ∈ (verify c1wSt c1wEnv 5 none).2 ∧
     ∀ rn, Effect.grantRole rn "Z" ∉ (verify c1wSt c1wEnv 5 none).2) :=
  C1_theorem c1wSt c1wEnv 5 1 ⟨"Y", 0⟩ ⟨"Z", 2⟩ ⟨10, "TowerY"⟩ "abc@pitt.edu"
    (by decide) (by decide) (by decide) (by decide) (by decide) (by decide)
    (by decide) (by decide) (by decide) (by decide)

/-- C2 counterexample: a concrete completed verification whose trace contains
the commit, yet some session deletion precedes the first commit, so the
persistence outcome is not observed before the session state is deleted. -/
theorem C2_counterexample :
    Effect.dbCommit ∈ (verify c2St c2Env 5 none).2 ∧
    observedBeforeDeletes (verify c2St c2Env 5 none).2 = false := by decide

/-- C2 amended: in a completed run the member-record merge is issued before
every session deletion, but the commit, the only point where persistence
success or failure surfaces, runs after all the deletions: the trace is a
prefix free of persistence and deletion markers, then the merge, then the
deletions, then the commit. -/
theorem C2_theorem (st : BotState) (env : Env) (u g : Nat) (invite : Invite)
    (role : Role) (email : String)
    (hdb : env.db_users u = none)
    (hg : st.user_to_guild u = some g)
    (hm : (env.guild_members g).contains u = true)
    (hui : st.user_to_invite u = some invite)
    (hcache : st.invite_to_role invite.code = some role)
    (hmail : env.modal_submission = some email)
    (hvalid : pyContains email pittDomain = true) :
    ∃ pre ds,
      (verify st env u none).2 =
        pre ++ Effect.dbMergeUser ⟨u, Nat.repr u, email, true, invite.uses == 0,
          role.name⟩ :: (ds ++ [Effect.dbCommit]) ∧
      ds.all (isDeleteOf u) = true ∧
      pre.all sessionMarkerFree = true := by
  rw [verify_fastpath_run st env u g invite role email hdb hg hm hui hcache hmail
    hvalid]
  cases hov : st.override_user_to_code u with
  | none =>
      refine ⟨[Effect.sendModal, Effect.sendUser (welcomeMsg u),
        Effect.editNick (nickOf email), Effect.sendLog (verifiedLog u email),
        (if invite.uses = 0 then Effect.grantRole "RA" invite.code
         else Effect.grantRole "resident" invite.code),
        Effect.grantRole role.name invite.code,
        Effect.sendLog (verifiedRoleLog u role.name),
        Effect.revokeLanding role.name],
        [Effect.delSession "user_to_email" u, Effect.delSession "user_to_guild" u,
         Effect.delSession "user_to_invite" u], ?_, ?_, ?_⟩
      · simp [hov]
      · simp [isDeleteOf]
      · by_cases h0 : invite.uses = 0 <;> simp [h0, sessionMarkerFree]
  | some ov =>
      refine ⟨[Effect.sendModal, Effect.sendUser (welcomeMsg u),
        Effect.editNick (nickOf email), Effect.sendLog (verifiedLog u email),
        (if invite.uses = 0 then Effect.grantRole "RA" invite.code
         else Effect.grantRole "resident" invite.code),
        Effect.grantRole role.name invite.code,
        Effect.sendLog (verifiedRoleLog u role.name),
        Effect.revokeLanding role.name],
        [Effect.delSession "user_to_email" u, Effect.delSession "user_to_guild" u,
         Effect.delSession "override_user_to_code" u,
         Effect.delSession "user_to_invite" u], ?_, ?_, ?_⟩
      · simp [hov]
      · simp [isDeleteOf]
      · by_cases h0 : invite.uses = 0 <;> simp [h0, sessionMarkerFree]

/-- C2 witness: the concrete completed run of the counterexample scenario
decomposed as prefix, merge, deletions, commit. -/
theorem C2_witness :
    ∃ pre ds,
      (verify c2St c2Env 5 none).2 =
        pre ++ Effect.dbMergeUser ⟨5, Nat.repr 5, "abc@pitt.edu", true,
          (0 : Nat) == 0, "TowerA"⟩ :: (ds ++ [Effect.dbCommit]) ∧
      ds.all (isDeleteOf 5) = true ∧
      pre.all sessionMarkerFree = true :=
  C2_theorem c2St c2Env 5 1 ⟨"Y", 0⟩ ⟨10, "TowerA"⟩ "abc@pitt.edu" (by decide)
    (by decide) (by decide) (by decide) (by decide) (by decide) (by decide)

/-- C4 counterexample: a zero-candidate join aborts with the operator warning,
yet the user-to-guild session entry written at the start of the handler
survives the aborted join, so per-user session state does survive. -/
theorem C4_counterexample :
    c4St.user_to_guild 5 = none ∧
    (on_member_join c4St c4Env 5 1).2 = [Effect.sendLog (joinNoCandidateLog 5)] ∧
    (on_member_join c4St c4Env 5 1).1.user_to_guild 5 = some 1 := by decide

/-- C4 amended: on a zero-candidate join the operator log channel is notified,
the flow aborts with no other effect, and no candidate entry is created, but
the user-to-guild binding recorded on entry survives the aborted join. -/
theorem C4_theorem (st : BotState) (env : Env) (u g : Nat)
    (hzero : potentialInvites (st.invites_cache g) (env.fresh_invites g) = []) :
    (on_member_join st env u g).2 = [Effect.sendLog (joinNoCandidateLog u)] ∧
    (on_member_join st env u g).1.user_to_invite = st.user_to_invite ∧
    (on_member_join st env u g).1.user_to_guild u = some g := by
  unfold on_member_join
  simp [hzero, setU]

/-- C4 witness: the spec example, snapshot A:5 unchanged across the join. -/
theorem C4_witness :
    (on_member_join c4St c4Env 5 1).2 = [Effect.sendLog (joinNoCandidateLog 5)] ∧
    (on_member_join c4St c4Env 5 1).1.user_to_invite = c4St.user_to_invite ∧
    (on_member_join c4St c4Env 5 1).1.user_to_guild 5 = some 1 :=
  C4_theorem c4St c4Env 5 1 (by decide)

/-- C7 counterexample: a run in which the overridden invite is neither cached
nor databased (a RoleNotFound) tells the user, but writes nothing to the
operator log channel, so the failure is not reported to the operator. -/
theorem C7_counterexample :
    (verify c7St c7Env 7 none).2 = [Effect.sendUser (inviteLinkFailMsg "zzz")] := by
  decide

/-- C7 amended: a databased invite whose role id does not resolve aborts with
both the user message and the operator report and grants nothing; a completed
run without an assigned role reports to the operator and the user while
granting only the tier role; but the override path with an invite neither
cached nor databased surfaces only the user message, with no operator report. -/
theorem C7_theorem :
    (∀ (st : BotState) (env : Env) (g u : Nat) (invite : Invite) (invObj : DbInvite),
      st.invite_to_role invite.code = none →
      env.db_invites invite.code = some invObj →
      (env.guild_roles g).find? (fun r => r.id == invObj.role_id) = none →
      fastPathResolve st env g u invite =
        (none, [Effect.sendUser noRoleFastMsg,
                Effect.sendLog (dbNoRoleLog invObj.code u)])) ∧
    (∀ (st : BotState) (env : Env) (g u : Nat) (invite : Invite)
       (invites_now : List Invite) (email : String),
      env.modal_submission = some email →
      pyContains email pittDomain = true →
      (actualVerification st env g u invite none invites_now).2 =
        [Effect.sendModal, Effect.sendUser (welcomeMsg u),
         Effect.editNick (nickOf email), Effect.sendLog (verifiedLog u email),
         (if invite.uses = 0 then Effect.grantRole "RA" invite.code
          else Effect.grantRole "resident" invite.code),
         Effect.sendLog (noRoleDetermineLog u),
         Effect.sendUser noRoleDetermineMsg]) ∧
    (∀ (st : BotState) (env : Env) (u g : Nat)
       (old_invites invites_now : List Invite) (ov invite : Invite),
      st.override_user_to_code u = some ov →
      old_invites.find? (fun i => i.code == ov.code) = some invite →
      st.invite_to_role ov.code = none →
      env.db_invites ov.code = none →
      slowPath st env u g old_invites invites_now =
        (st, [Effect.sendUser (inviteLinkFailMsg ov.code)])) := by
  refine ⟨?_, ?_, ?_⟩
  · intro st env g u invite invObj h1 h2 h3
    unfold fastPathResolve
    simp [h1, h2, h3]
  · intro st env g u invite invites_now email hmail hvalid
    unfold actualVerification
    simp [hmail, hvalid, setU]
  · intro st env u g old_invites invites_now ov invite hov hfind h1 h2
    unfold slowPath
    simp [hov, hfind, h1, h2]

/-- C7 witness: the three paths at concrete inputs, with the missing role id
99, a valid email, and the uncached override code zzz. -/
theorem C7_witness :
    fastPathResolve c7wSt c7wEnv 1 7 ⟨"Q", 2⟩ =
      (none, [Effect.sendUser noRoleFastMsg,
              Effect.sendLog (dbNoRoleLog "Q" 7)]) ∧
    (actualVerification c7wSt c7wEnv 1 7 ⟨"Q", 2⟩ none []).2 =
      [Effect.sendModal, Effect.sendUser (welcomeMsg 7),
       Effect.editNick (nickOf "abc@pitt.edu"),
       Effect.sendLog (verifiedLog 7 "abc@pitt.edu"),
       (if (⟨"Q", 2⟩ : Invite).uses = 0 then Effect.grantRole "RA" "Q"
        else Effect.grantRole "resident" "Q"),
       Effect.sendLog (noRoleDetermineLog 7),
       Effect.sendUser noRoleDetermineMsg] ∧
    slowPath c7St c7Env 7 1 [⟨"zzz", 4⟩] [⟨"zzz", 4⟩] =
      (c7St, [Effect.sendUser (inviteLinkFailMsg "zzz")]) :=
  ⟨C7_theorem.1 c7wSt c7wEnv 1 7 ⟨"Q", 2⟩ ⟨"Q", 1, 99⟩ (by decide) (by decide)
     (by decide),
   C7_theorem.2.1 c7wSt c7wEnv 1 7 ⟨"Q", 2⟩ [] "abc@pitt.edu" (by decide)
     (by decide),
   C7_theorem.2.2 c7St c7Env 7 1 [⟨"zzz", 4⟩] [⟨"zzz", 4⟩] ⟨"zzz", 4⟩ ⟨"zzz", 4⟩
     (by decide) (by decide) (by decide) (by decide)⟩

/-- Middle-segment cancellation for string concatenation. -/
theorem string_append_cancel (p q s t : String)
    (h : p ++ s ++ q = p ++ t ++ q) : s = t := by
  have hd := congrArg String.data h
  rw [String.data_append, String.data_append, String.data_append,
    String.data_append] at hd
  have h1 := List.append_cancel_right hd
  have h2 := List.append_cancel_left h1
  exact String.ext h2

/-- C8 counterexample: two hard-failure runs that differ only in the override
invite code produce different user-facing message texts, so the user message
varies with an internal identifier. -/
theorem C8_counterexample :
    userMsgs (verify c8StA c8Env 7 none).2 ≠ userMsgs (verify c8StB c8Env 7 none).2 := by
  decide

/-- C8 amended: the zero-candidate hard failure sends the constant
identifier-free user message together with the operator report, but the
RoleNotFound user message embeds the invite code (distinct codes give distinct
texts) and the missing-record message embeds the rendered user id. -/
theorem C8_theorem :
    (∀ (st : BotState) (env : Env) (u g : Nat),
      env.db_users u = none →
      st.user_to_guild u = some g →
      (env.guild_members g).contains u = true →
      st.user_to_invite u = none →
      st.override_user_to_code u = none →
      potentialInvites (st.invites_cache g) (env.fresh_invites g) = [] →
      (verify st env u none).2 =
        [Effect.sendLog (noCandidateLogVerify u), Effect.sendUser noCandidateMsg]) ∧
    (∀ c1 c2 : String, inviteLinkFailMsg c1 = inviteLinkFailMsg c2 → c1 = c2) ∧
    (∀ u1 u2 : Nat, err404Msg u1 = err404Msg u2 → Nat.repr u1 = Nat.repr u2) := by
  refine ⟨?_, ?_, ?_⟩
  · intro st env u g hdb hg hm hui hov hzero
    have hm2 : u ∈ env.guild_members g := by simpa using hm
    unfold verify verifyInGuild slowPath
    simp [hdb, hg, hm, hm2, hui, hov, hzero]
  · intro c1 c2 h
    exact string_append_cancel _ _ _ _ h
  · intro u1 u2 h
    exact string_append_cancel _ _ _ _ h

/-- C8 witness: the zero-candidate run of user 7 and reflexive instantiations
of the two embedding facts. -/
theorem C8_witness :
    (verify c8wSt c8wEnv 7 none).2 =
      [Effect.sendLog (noCandidateLogVerify 7), Effect.sendUser noCandidateMsg] ∧
    ("aa" : String) = "aa" ∧ Nat.repr 3 = Nat.repr 3 :=
  ⟨C8_theorem.1 c8wSt c8wEnv 7 1 (by decide) (by decide) (by decide) (by decide)
     (by decide) (by decide),
   C8_theorem.2.1 "aa" "aa" rfl,
   C8_theorem.2.2 3 3 rfl⟩

/-- One option-building step only adds message effects. -/
theorem buildOptionsStep_benign (st : BotState) (env : Env) (g u : Nat) (fv : Bool)
    (acc : List String × (String → Option Invite) × List Effect) (inv : Invite)
    (hacc : ∀ e ∈ acc.2.2, benign e = true) :
    ∀ e ∈ (buildOptionsStep st env g u fv acc inv).2.2, benign e = true := by
  unfold buildOptionsStep
  split
  · exact hacc
  · split
    · split
      · exact hacc
      · intro e he
        rcases List.mem_append.mp he with he2 | he2
        · rcases List.mem_append.mp he2 with he3 | he3
          · exact hacc e he3
          · split at he3
            · rw [List.mem_singleton] at he3
              subst he3
              rfl
            · cases he3
        · rw [List.mem_singleton] at he2
          subst he2
          rfl
    · intro e he
      rcases List.mem_append.mp he with he2 | he2
      · exact hacc e he2
      · split at he2
        · simp only [List.mem_cons, List.not_mem_nil, or_false] at he2
          rcases he2 with rfl | rfl <;> rfl
        · rw [List.mem_singleton] at he2
          subst he2
          rfl

/-- Every effect produced by the ambiguity option-building loop is a message. -/
theorem buildOptions_benign_aux (st : BotState) (env : Env) (g u : Nat) (fv : Bool)
    (l : List Invite) (acc : List String × (String → Option Invite) × List Effect)
    (hacc : ∀ e ∈ acc.2.2, benign e = true) :
    ∀ e ∈ (l.foldl (buildOptionsStep st env g u fv) acc).2.2, benign e = true := by
  induction l generalizing acc with
  | nil => exact hacc
  | cons inv rest ih =>
      rw [List.foldl_cons]
      exact ih _ (buildOptionsStep_benign st env g u fv acc inv hacc)

/-- C9: on_member_join performs no completion side effects: in every branch
its effects are messages and prompts only (no role grant, no nickname edit,
no record merge, no commit, no deletion), and it leaves the role-binding
cache, the email cache and the override cache untouched. -/
theorem C9_theorem (st : BotState) (env : Env) (u g : Nat) :
    (∀ e ∈ (on_member_join st env u g).2, benign e = true) ∧
    (on_member_join st env u g).1.invite_to_role = st.invite_to_role ∧
    (on_member_join st env u g).1.user_to_email = st.user_to_email ∧
    (on_member_join st env u g).1.override_user_to_code = st.override_user_to_code := by
  dsimp only [on_member_join]
  cases hpot : potentialInvites (st.invites_cache g) (env.fresh_invites g) with
  | nil =>
      refine ⟨?_, rfl, rfl, rfl⟩
      intro e he
      rw [List.mem_singleton] at he
      subst he
      rfl
  | cons a t =>
      cases t with
      | nil =>
          refine ⟨?_, rfl, rfl, rfl⟩
          intro e he
          rw [List.mem_singleton] at he
          subst he
          rfl
      | cons b t2 =>
          refine ⟨?_, rfl, rfl, rfl⟩
          intro e he
          rcases List.mem_append.mp he with he2 | he2
          · exact buildOptions_benign_aux _ _ _ _ _ _ _
              (fun x hx => absurd hx (List.not_mem_nil x)) e he2
          · simp only [List.mem_cons, List.not_mem_nil, or_false] at he2
            rcases he2 with rfl | rfl <;> rfl

/-- C10: the dropdown callback writes the invite mapped from the selected
option into both the override cache and the candidate cache, which therefore
agree, and the verify flow it triggers resolves through exactly that invite
on the cached-invite fast path, granting its bound role under that code. -/
theorem C10_theorem (st st2 : BotState) (env : Env) (u g : Nat)
    (opts_to_inv : String → Option Invite) (choice : String) (inv : Invite)
    (role : Role) (email : String)
    (hsel : opts_to_inv choice = some inv)
    (hcb : communitySelectCallbackState st opts_to_inv u choice = some st2)
    (hdb : env.db_users u = none)
    (hg : st.user_to_guild u = some g)
    (hm : (env.guild_members g).contains u = true)
    (hcache : st.invite_to_role inv.code = some role)
    (hmail : env.modal_submission = some email)
    (hvalid : pyContains email pittDomain = true) :
    st2.override_user_to_code u = some inv ∧
    st2.user_to_invite u = some inv ∧
    Effect.grantRole role.name inv.code ∈ (verify st2 env u none).2 := by
  unfold communitySelectCallbackState at hcb
  rw [hsel] at hcb
  have hst2 := Option.some_injective _ hcb
  subst hst2
  refine ⟨by simp [setU], by simp [setU], ?_⟩
  rw [verify_fastpath_run
    { st with override_user_to_code := setU st.override_user_to_code u inv,
              user_to_invite := setU st.user_to_invite u inv }
    env u g inv role email hdb hg hm (by simp [setU]) hcache hmail hvalid]
  by_cases h0 : inv.uses = 0 <;> simp [h0]

/-- C10 witness: selecting TowerY maps to invite Y; both caches then hold Y
and the triggered verify grants TowerY under code Y. -/
theorem C10_witness :
    c10St2.override_user_to_code 7 = some ⟨"Y", 0⟩ ∧
    c10St2.user_to_invite 7 = some ⟨"Y", 0⟩ ∧
    Effect.grantRole "TowerY" "Y" ∈ (verify c10St2 c10Env 7 none).2 :=
  C10_theorem c10St c10St2 c10Env 7 1 c10Map "TowerY" ⟨"Y", 0⟩ ⟨10, "TowerY"⟩
    "abc@pitt.edu" (by decide) (by rfl) (by decide) (by decide) (by decide)
    (by decide) (by decide) (by decide)

end PittBot
